import Mathlib

/-!
Verification of the PIC_SYNC_QINIU synchronization engine.

This file shallowly embeds the core of the repository — the content-hash
diff algorithm (`src/sync/diff.py`), the manifest data model and its dict
round-trip (`src/sync/manifest.py`), the lease lock (`src/sync/lock.py`),
the scanner's file-level filtering (`src/sync/scanner.py`), and the
per-cycle pipeline of `SyncEngine._cycle` (`src/sync/scheduler.py`) — and
proves or refutes the specification's claims about them.

Conventions of the embedding:
* Python `dict`s are association lists `List (String × α)`; lookup takes
  the first matching key (Python dicts have unique keys, so the two agree).
* Python `sorted` over a set of strings is `List.insertionSort (· ≤ ·)`
  over the corresponding key list (both orders are lexicographic by code
  point).
* Wall-clock time is an explicit `Int` parameter measured in minutes, and
  ISO-8601 parsing (`datetime.fromisoformat`) is an explicit parameter of
  type `String → Option Int`, so that the `try/except` fallback paths of
  `lock.py` are visible.
* Network and filesystem effects are inputs (what the remote returned) and
  recorded outputs (what the cycle attempted), collected in `CycleEnv` and
  `CycleResult`.
-/

namespace PicSync

/-- A file record as it appears as a value of a local or server index in
`compute_diff` (`src/sync/diff.py`).  The code reads only the `md5` entry
(with `dict.get`, hence `Option`) and the truthiness of the `deleted`
entry (an `int`, missing counted as `0`). -/
structure FileRecord where
  md5 : Option String
  deleted : Nat
deriving DecidableEq, Repr

/-- An index: a Python dict from normalized relative path to record,
embedded as an association list. -/
abbrev Index := List (String × FileRecord)

/-- The keys of an index (`dict.keys()`). -/
def keys (m : Index) : List String := m.map Prod.fst

/-- Dict lookup: first value stored under `k`, if any. -/
def getVal (m : Index) (k : String) : Option FileRecord :=
  (m.find? (fun p => p.1 == k)).map Prod.snd

/-- `(m[k] or {}).get("md5")` from `compute_diff`. -/
def md5At (m : Index) (k : String) : Option String :=
  match getVal m k with
  | some r => r.md5
  | none => none

/-- Truthiness of `(m[k] or {}).get("deleted")` from `compute_diff`. -/
def deletedAt (m : Index) (k : String) : Bool :=
  match getVal m k with
  | some r => r.deleted != 0
  | none => false

/-- Python's string order: lexicographic by code point, i.e. the order of
the character lists.  (This is the same order as `≤` on `String`, see
`pathLe_iff_le` below; the `toList` form is used because it is the one the
kernel can evaluate on concrete paths.) -/
def pathLe (a b : String) : Prop := a.toList ≤ b.toList

instance pathLeDec : DecidableRel pathLe :=
  fun a b => inferInstanceAs (Decidable (a.toList ≤ b.toList))

instance pathLeTotal : IsTotal String pathLe :=
  ⟨fun a b => le_total a.toList b.toList⟩

instance pathLeTrans : IsTrans String pathLe :=
  ⟨fun _ _ _ hab hbc => le_trans hab hbc⟩

/-- Python `sorted` on a collection of path strings. -/
def sortKeys (l : List String) : List String := List.insertionSort pathLe l

/-- The result record of the diff engine (`DiffResult` in
`src/sync/diff.py`). -/
structure DiffResult where
  to_upload : List String
  to_download : List String
  to_delete_remote : List String
  conflicts : List String
deriving DecidableEq, Repr

/-- `compute_diff` (`src/sync/diff.py` lines 12–29): `to_upload` is the
sorted locally-new keys followed by the sorted common keys whose `md5`
differs; `to_delete_remote` is the sorted server-only keys whose `deleted`
entry is falsy; `to_download` and `conflicts` stay empty. -/
def compute_diff (localIdx serverIdx : Index) : DiffResult :=
  let localKeys := keys localIdx
  let serverKeys := keys serverIdx
  let uploadNew := sortKeys (localKeys.filter (fun k => !(serverKeys.contains k)))
  let uploadModified :=
    (sortKeys (localKeys.filter (fun k => serverKeys.contains k))).filter
      (fun k => !(md5At localIdx k == md5At serverIdx k))
  let deletes :=
    (sortKeys (serverKeys.filter (fun k => !(localKeys.contains k)))).filter
      (fun k => !(deletedAt serverIdx k))
  { to_upload := uploadNew ++ uploadModified
    to_download := []
    to_delete_remote := deletes
    conflicts := [] }

/-! ### Manifest data model (`src/sync/manifest.py`) -/

/-- Reserved remote key of the manifest (`MANIFEST_KEY`). -/
def MANIFEST_KEY : String := "__sync/manifest.json"

/-- A manifest file entry (`ManifestEntry` dataclass). -/
structure ManifestEntry where
  rel_path : String
  size : Nat
  mtime_utc : String
  md5 : String
  qetag : String
  ext : String
  modified_by_device_id : String
  deleted : Nat
deriving DecidableEq, Repr

/-- The dict form of a `ManifestEntry`: every field optionally present
(`dict.get` conflates a missing key with a `None` value). -/
structure EntryDict where
  rel_path : Option String
  size : Option Nat
  mtime_utc : Option String
  md5 : Option String
  qetag : Option String
  ext : Option String
  modified_by_device_id : Option String
  deleted : Option Nat
deriving DecidableEq, Repr

/-- `dataclasses.asdict` on a `ManifestEntry`: every field present. -/
def ManifestEntry.to_dict (e : ManifestEntry) : EntryDict :=
  { rel_path := some e.rel_path, size := some e.size, mtime_utc := some e.mtime_utc
    md5 := some e.md5, qetag := some e.qetag, ext := some e.ext
    modified_by_device_id := some e.modified_by_device_id, deleted := some e.deleted }

/-- `ManifestEntry(**v)`: succeeds when every non-defaulted field is
present; `deleted` defaults to `0`; a missing required field raises
(`none`). -/
def ManifestEntry.from_dict (d : EntryDict) : Option ManifestEntry :=
  match d.rel_path, d.size, d.mtime_utc, d.md5, d.qetag, d.ext, d.modified_by_device_id with
  | some rp, some sz, some mt, some m5, some qe, some ex, some mb =>
      some { rel_path := rp, size := sz, mtime_utc := mt, md5 := m5, qetag := qe, ext := ex
             modified_by_device_id := mb, deleted := d.deleted.getD 0 }
  | _, _, _, _, _, _, _ => none

/-- The manifest (`Manifest` dataclass).  `generated_at_utc` is `Option`
because `from_dict` stores `d.get("generated_at_utc")`, which is `None`
when the key is absent (the scheduler guards with `or ""`). -/
structure Manifest where
  version : Nat
  manifest_seq : Nat
  generated_at_utc : Option String
  generator_device_id : String
  files : List (String × ManifestEntry)
deriving DecidableEq, Repr

/-- `Manifest.empty(device_id)`: version 1, sequence 0, generated now by
this device, no files.  The wall-clock ISO timestamp is a parameter. -/
def Manifest.empty (device_id : String) (nowIso : String) : Manifest :=
  { version := 1, manifest_seq := 0, generated_at_utc := some nowIso
    generator_device_id := device_id, files := [] }

/-- The dict form of a `Manifest`. -/
structure ManifestDict where
  version : Option Nat
  manifest_seq : Option Nat
  generated_at_utc : Option String
  generator_device_id : Option String
  files : Option (List (String × EntryDict))
deriving DecidableEq, Repr

/-- `Manifest.to_dict`: `asdict(self)` with the `files` values re-encoded
entry by entry. -/
def Manifest.to_dict (m : Manifest) : ManifestDict :=
  { version := some m.version, manifest_seq := some m.manifest_seq
    generated_at_utc := m.generated_at_utc
    generator_device_id := some m.generator_device_id
    files := some (m.files.map (fun p => (p.1, p.2.to_dict))) }

/-- Decode every entry of a files dict; the first malformed entry makes
the whole decode raise (`none`), as `ManifestEntry(**v)` would. -/
def entriesFromDict : List (String × EntryDict) → Option (List (String × ManifestEntry))
  | [] => some []
  | (k, v) :: rest =>
    match ManifestEntry.from_dict v, entriesFromDict rest with
    | some e, some es => some ((k, e) :: es)
    | _, _ => none

/-- `Manifest.from_dict`: rebuild the entries, then read each field with
`dict.get` and its default (`version` 1, `manifest_seq` 0,
`generator_device_id` `""`, `generated_at_utc` bare). -/
def Manifest.from_dict (d : ManifestDict) : Option Manifest :=
  match entriesFromDict (d.files.getD []) with
  | some fs =>
      some { version := d.version.getD 1, manifest_seq := d.manifest_seq.getD 0
             generated_at_utc := d.generated_at_utc
             generator_device_id := d.generator_device_id.getD ""
             files := fs }
  | none => none

/-! ### Lease lock (`src/sync/lock.py`) -/

/-- Reserved remote key of the lock (`LOCK_KEY`). -/
def LOCK_KEY : String := "__sync/lock.json"

/-- The grace period the scheduler passes to
`is_expired_with_grace` (`LOCK_GRACE_MINUTES` in `scheduler.py`). -/
def LOCK_GRACE_MINUTES : Int := 5

/-- One day expressed in minutes (`timedelta(days=1)`). -/
def ONE_DAY_MINUTES : Int := 1440

/-- The lease lock record (`LeaseLock` dataclass). -/
structure LeaseLock where
  owner_device_id : String
  locked_at_utc : String
  expires_at_utc : String
  manifest_seq_when_locked : Nat
  nonce : String
deriving DecidableEq, Repr

/-- `LeaseLock.expires_dt`: parse the stored expiry; on a parse failure
fall back to one day before now.  Time is measured in minutes and
`datetime.fromisoformat` is the abstract `parse` parameter. -/
def LeaseLock.expires_dt (parse : String → Option Int) (now : Int) (lk : LeaseLock) : Int :=
  match parse lk.expires_at_utc with
  | some t => t
  | none => now - ONE_DAY_MINUTES

/-- `LeaseLock.is_expired`: now has reached the expiry. -/
def LeaseLock.is_expired (parse : String → Option Int) (now : Int) (lk : LeaseLock) : Bool :=
  decide (lk.expires_dt parse now ≤ now)

/-- `LeaseLock.is_expired_with_grace`: now has reached expiry + grace. -/
def LeaseLock.is_expired_with_grace (parse : String → Option Int) (now : Int)
    (lk : LeaseLock) (grace : Int) : Bool :=
  decide (lk.expires_dt parse now + grace ≤ now)

/-! ### Scanner file filtering (`src/sync/scanner.py`)

`os.walk` and per-file `stat`/hashing are filesystem effects; the walk's
yield is the input list, each element carrying the file name, the suffix
`Path(name).suffix` computes, the relative path `scan_directory` computes
for it, the stat data, and whether stat/hash succeeded.  The embedding
keeps the file-level filtering, which is what decides which records are
produced. -/

/-- One file offered by the directory walk. -/
structure RawFile where
  name : String
  suffix : String
  rel : String
  size : Nat
  mtime_utc : String
  md5 : String
  statOk : Bool
deriving DecidableEq, Repr

/-- Does `pat` occur as a contiguous run inside `s`? -/
def listHasRun (pat : List Char) : List Char → Bool
  | [] => pat.isEmpty
  | c :: rest => pat.isPrefixOf (c :: rest) || listHasRun pat rest

/-- Substring test (Python `pat in s`). -/
def containsSubstr (pat s : String) : Bool := listHasRun pat.toList s.toList

/-- `s.startswith(pat)` (character-list form). -/
def strStartsWith (s pat : String) : Bool := pat.toList.isPrefixOf s.toList

/-- `s.lower()` (character-list form; ASCII, which covers every string the
scanner compares lowered names against). -/
def strToLower (s : String) : String := ⟨s.toList.map Char.toLower⟩

/-- The fixed extension deny-list of `scan_directory`. -/
def IGNORED_EXTS : List String :=
  [".exe", ".txt", ".ini", ".xls", ".xlsx", ".doc", ".docx", ".ppt", ".pptx",
   ".ink", ".apk", ".zip", ".pdf", ".tmp"]

/-- The file-level filter of `scan_directory`: reserved filenames, the
extension deny-list, reserved relative-path namespaces, and the
stat/hash `try/except`. -/
def keepFile (f : RawFile) : Bool :=
  let lname := strToLower f.name
  if lname == ".stfolder" || lname == ".htaccess" then false
  else if IGNORED_EXTS.contains (strToLower f.suffix) then false
  else if strStartsWith f.rel "__sync/" || containsSubstr "/__sync/" f.rel
       || containsSubstr "/.stfolder/" f.rel then false
  else f.statOk

/-- A record yielded by `scan_directory` (before the scheduler adds
`modified_by_device_id` and `deleted`). -/
structure ScanRecord where
  rel_path : String
  size : Nat
  mtime_utc : String
  md5 : String
  qetag : String
  ext : String
deriving DecidableEq, Repr

/-- `scan_directory`: keep the surviving files and build their records;
`qetag` is `pseudo_qetag`, which currently reuses the md5, and `ext` is
the lower-cased suffix. -/
def scan_directory (walk : List RawFile) : List ScanRecord :=
  (walk.filter keepFile).map (fun f =>
    { rel_path := f.rel, size := f.size, mtime_utc := f.mtime_utc
      md5 := f.md5, qetag := f.md5, ext := strToLower f.suffix })

/-! ### The per-cycle pipeline (`SyncEngine._cycle`, `src/sync/scheduler.py`)

One cycle is a pure function of what the remote returned, what the local
scan produced, and the engine's `_skip_delete_once` flag; its outputs are
the remote operations it attempted and the next value of the flag. -/

/-- The value the scheduler stores in `local_index` for a scanned file, as
`compute_diff` sees it (`r["deleted"] = 0` is set before insertion). -/
def ScanRecord.toFileRecord (r : ScanRecord) : FileRecord :=
  { md5 := some r.md5, deleted := 0 }

/-- The value `vars(v)` of a manifest entry, as `compute_diff` sees it in
`server_index`. -/
def ManifestEntry.toFileRecord (e : ManifestEntry) : FileRecord :=
  { md5 := some e.md5, deleted := e.deleted }

/-- `local_index` restricted to what `compute_diff` reads. -/
def localIndexFR (scan : List ScanRecord) : Index :=
  scan.map (fun r => (r.rel_path, r.toFileRecord))

/-- `server_index` built from the resolved manifest's files. -/
def serverIndexFR (m : Manifest) : Index :=
  m.files.map (fun p => (p.1, p.2.toFileRecord))

/-- Step 1 of `_cycle`: pick between the remote manifest and the cached
one.  `none` means the cycle raises (remote absent, cache present but
undecodable — `Manifest.from_dict` outside the `try` block).  When both
are present, a cache that fails to decode falls back to the remote copy;
otherwise the cache wins exactly when its generation timestamp compares
`≥` the remote one as a string. -/
def resolveManifest (remote : Option Manifest) (retag : Option String)
    (cachedDict : Option ManifestDict) (cetag : Option String)
    (deviceId nowIso : String) : Option (Manifest × Option String) :=
  match remote, cachedDict with
  | some rm, some cd =>
    match Manifest.from_dict cd with
    | some cm =>
        if rm.generated_at_utc.getD "" ≤ cm.generated_at_utc.getD ""
        then some (cm, cetag)
        else some (rm, retag)
    | none => some (rm, retag)
  | some rm, none => some (rm, retag)
  | none, some cd =>
    match Manifest.from_dict cd with
    | some cm => some (cm, cetag)
    | none => none
  | none, none => some (Manifest.empty deviceId nowIso, none)

/-- Everything a cycle consumes: clock, remote reads, local scan, and the
success/failure of each remote write the backend would report. -/
structure CycleEnv where
  deviceId : String
  nowIso : String
  now : Int
  parse : String → Option Int
  remoteManifest : Option Manifest
  remoteEtag : Option String
  cachedDict : Option ManifestDict
  cachedEtag : Option String
  scan : List ScanRecord
  remoteLock : Option LeaseLock
  forceUpload : Bool
  lockUploadOk : Bool
  manifestUploadOk : Bool
  fileExists : String → Bool
  uploadOk : String → Bool
  deleteOk : String → Bool
  skipDeleteOnce : Bool

/-- How a cycle ended. -/
inductive CycleStatus
  | noDiff
  | lockHeldByOther
  | lockAcquireFailed
  | cycleError
  | completed
deriving DecidableEq, Repr

/-- Everything a cycle did: which remote operations were issued, what was
written, and the next value of `_skip_delete_once`. -/
structure CycleResult where
  status : CycleStatus
  lockFetched : Bool
  lockReclaimed : Bool
  lockWritten : Bool
  lockReleased : Bool
  uploadsAttempted : List String
  uploadsSucceeded : List String
  deletesAttempted : List String
  deletesSucceeded : List String
  manifestWritten : Option Manifest
  cacheSaved : Bool
  skipDeleteOnceAfter : Bool
deriving DecidableEq, Repr

/-- A cycle outcome that issued no transfer and wrote no manifest. -/
def CycleResult.quiet (status : CycleStatus)
    (lockFetched lockReclaimed lockWritten skipAfter : Bool) : CycleResult :=
  { status := status, lockFetched := lockFetched, lockReclaimed := lockReclaimed
    lockWritten := lockWritten, lockReleased := false
    uploadsAttempted := [], uploadsSucceeded := []
    deletesAttempted := [], deletesSucceeded := []
    manifestWritten := none, cacheSaved := false
    skipDeleteOnceAfter := skipAfter }

/-- Step 3 of `_cycle`: diff the scan against the resolved manifest, then
apply the single-use profile-switch guard to `to_delete_remote`. -/
def envDiff (env : CycleEnv) (m : Manifest) : DiffResult :=
  let d := compute_diff (localIndexFR env.scan) (serverIndexFR m)
  if env.skipDeleteOnce then { d with to_delete_remote := [] } else d

/-- The manifest entry the rewrite step builds for a scanned file. -/
def ScanRecord.toEntry (r : ScanRecord) (deviceId : String) : ManifestEntry :=
  { rel_path := r.rel_path, size := r.size, mtime_utc := r.mtime_utc
    md5 := r.md5, qetag := r.qetag, ext := r.ext
    modified_by_device_id := deviceId, deleted := 0 }

/-- Step 7 of `_cycle`: the brand-new manifest — sequence bumped by one,
generated now by this device, files = the complete local scan. -/
def newManifestOf (env : CycleEnv) (m : Manifest) : Manifest :=
  { version := 1, manifest_seq := m.manifest_seq + 1
    generated_at_utc := some env.nowIso
    generator_device_id := env.deviceId
    files := env.scan.map (fun r => (r.rel_path, r.toEntry env.deviceId)) }

/-- Steps 6–8 of `_cycle`: run the transfer loops, rewrite the manifest
(unconditionally built from the local scan), cache it on upload success,
and release the lock when this cycle created or renewed it. -/
def finishCycle (env : CycleEnv) (m : Manifest) (diff : DiffResult)
    (lockFetched lockReclaimed lockWritten lockReleased : Bool) : CycleResult :=
  { status := .completed
    lockFetched := lockFetched, lockReclaimed := lockReclaimed
    lockWritten := lockWritten, lockReleased := lockReleased
    uploadsAttempted := diff.to_upload
    uploadsSucceeded := diff.to_upload.filter (fun k => env.fileExists k && env.uploadOk k)
    deletesAttempted := diff.to_delete_remote
    deletesSucceeded := diff.to_delete_remote.filter env.deleteOk
    manifestWritten := some (newManifestOf env m)
    cacheSaved := env.manifestUploadOk
    skipDeleteOnceAfter := false }

/-- One full cycle (`SyncEngine._cycle`): resolve, diff, short-circuit on
no difference, then the lock protocol (force-override, self-renewal,
foreign-lock grace handling, optimistic acquisition), then transfer and
manifest rewrite.  The early returns for a live foreign lock and for a
failed lock write leave `_skip_delete_once` untouched; the no-difference
return and a completed cycle clear it. -/
def runCycle (env : CycleEnv) : CycleResult :=
  match resolveManifest env.remoteManifest env.remoteEtag env.cachedDict
      env.cachedEtag env.deviceId env.nowIso with
  | none => CycleResult.quiet .cycleError false false false env.skipDeleteOnce
  | some (manifest, _etag) =>
    let diff := envDiff env manifest
    if diff.to_upload = [] ∧ diff.to_delete_remote = [] ∧ diff.to_download = [] then
      CycleResult.quiet .noDiff false false false false
    else if env.forceUpload then
      finishCycle env manifest diff false false false false
    else
      match env.remoteLock with
      | some lk =>
        if lk.owner_device_id == env.deviceId then
          finishCycle env manifest diff true false true true
        else if lk.is_expired_with_grace env.parse env.now LOCK_GRACE_MINUTES then
          if env.lockUploadOk then
            finishCycle env manifest diff true true true true
          else
            CycleResult.quiet .lockAcquireFailed true true true env.skipDeleteOnce
        else
          CycleResult.quiet .lockHeldByOther true false false env.skipDeleteOnce
      | none =>
        if env.lockUploadOk then
          finishCycle env manifest diff true false true true
        else
          CycleResult.quiet .lockAcquireFailed true false true env.skipDeleteOnce

/-- The profile-switch detection in `SyncEngine._run`: the skip-deletes
flag is raised exactly when the persisted profile key differs from the
freshly computed one. -/
def initialSkipDelete (lastKey : Option String) (currentKey : String) : Bool :=
  !(lastKey == some currentKey)

/-! ### Concrete scenarios

Small closed inputs used to exhibit counterexamples and to instantiate
the theorems below on concrete data. -/

/-- A cycle environment with nothing on the remote side: an isolated
device at minute 0 whose clock parser understands two timestamps. -/
def baseEnv : CycleEnv :=
  { deviceId := "dev-a", nowIso := "2024-06-01T00:00:00+00:00", now := 0
    parse := fun s =>
      if s == "2024-06-01T00:10:00+00:00" then some 10
      else if s == "2024-05-31T20:00:00+00:00" then some (-240)
      else none
    remoteManifest := none, remoteEtag := none, cachedDict := none, cachedEtag := none
    scan := [], remoteLock := none, forceUpload := false
    lockUploadOk := true, manifestUploadOk := true
    fileExists := fun _ => true, uploadOk := fun _ => true, deleteOk := fun _ => true
    skipDeleteOnce := false }

/-- A scanned local file. -/
def scanA : ScanRecord :=
  { rel_path := "images/a.jpg", size := 3, mtime_utc := "2024-05-30T00:00:00+00:00"
    md5 := "h1", qetag := "h1", ext := ".jpg" }

/-- Another scanned local file. -/
def scanC : ScanRecord :=
  { rel_path := "new/c.jpg", size := 5, mtime_utc := "2024-05-30T01:00:00+00:00"
    md5 := "h3", qetag := "h3", ext := ".jpg" }

/-- A manifest entry another device published for path `p` with checksum `m`. -/
def entryOf (p : String) (m : String) : ManifestEntry :=
  { rel_path := p, size := 3, mtime_utc := "2024-05-29T00:00:00+00:00"
    md5 := m, qetag := m, ext := ".jpg", modified_by_device_id := "dev-b", deleted := 0 }

/-- A foreign lock whose expiry parses as minute 10: still live at `now = 0`. -/
def liveLock : LeaseLock :=
  { owner_device_id := "dev-b", locked_at_utc := "2024-05-31T23:55:00+00:00"
    expires_at_utc := "2024-06-01T00:10:00+00:00", manifest_seq_when_locked := 0, nonce := "n1" }

/-- A foreign lock whose expiry parses as minute −240: four hours stale. -/
def staleLock : LeaseLock :=
  { owner_device_id := "dev-b", locked_at_utc := "2024-05-31T19:45:00+00:00"
    expires_at_utc := "2024-05-31T20:00:00+00:00", manifest_seq_when_locked := 0, nonce := "n2" }

/-- A foreign lock whose expiry is not ISO-8601 at all. -/
def corruptLock : LeaseLock :=
  { owner_device_id := "dev-b", locked_at_utc := "2024-05-31T19:45:00+00:00"
    expires_at_utc := "not-a-timestamp", manifest_seq_when_locked := 0, nonce := "n3" }

/-- A server manifest holding `images/a.jpg` (same checksum as the local
scan) and `old/b.jpg` (absent locally). -/
def serverManifest : Manifest :=
  { version := 1, manifest_seq := 7, generated_at_utc := some "2024-05-31T00:00:00+00:00"
    generator_device_id := "dev-b"
    files := [("images/a.jpg", entryOf "images/a.jpg" "h1"),
              ("old/b.jpg", entryOf "old/b.jpg" "h2")] }

/-- A server manifest that matches the local scan `[scanA]` exactly. -/
def manifestA : Manifest :=
  { version := 1, manifest_seq := 7, generated_at_utc := some "2024-05-31T00:00:00+00:00"
    generator_device_id := "dev-b"
    files := [("images/a.jpg", entryOf "images/a.jpg" "h1")] }

/-- Local index with a fresh key `"b"` and a modified common key `"a"`. -/
def c2CexLocal : Index :=
  [("b", { md5 := some "h1", deleted := 0 }), ("a", { md5 := some "h2", deleted := 0 })]

/-- Server index holding `"a"` with a different checksum. -/
def c2CexServer : Index := [("a", { md5 := some "h3", deleted := 0 })]

/-- First cycle after a profile switch, blocked by a live foreign lock. -/
def envC4a : CycleEnv :=
  { baseEnv with skipDeleteOnce := true, scan := [scanA], remoteLock := some liveLock }

/-- The cycle after `envC4a`: the flag carried over from `envC4a`, the lock
gone, and a server manifest holding a path absent locally. -/
def envC4b : CycleEnv :=
  { baseEnv with
    skipDeleteOnce := (runCycle envC4a).skipDeleteOnceAfter
    scan := [scanA, scanC]
    remoteManifest := some serverManifest }

/-- A cycle with a pending upload facing a stale foreign lock. -/
def envC5stale : CycleEnv :=
  { baseEnv with scan := [scanA], remoteLock := some staleLock }

/-- A cycle with a pending upload facing a live foreign lock. -/
def envC5live : CycleEnv :=
  { baseEnv with scan := [scanA], remoteLock := some liveLock }

/-- A cycle whose scan matches the server manifest exactly. -/
def envC6 : CycleEnv :=
  { baseEnv with scan := [scanA], remoteManifest := some manifestA }

/-- A cycle with one new local file over `manifestA`, no lock in the way. -/
def envC7 : CycleEnv :=
  { baseEnv with scan := [scanA, scanC], remoteManifest := some manifestA }

/-- A cycle with a pending upload facing a foreign lock whose expiry does
not parse. -/
def envC10 : CycleEnv :=
  { baseEnv with scan := [scanA], remoteLock := some corruptLock }

/-- A file offered by the walk that survives every scanner filter. -/
def rawGood : RawFile :=
  { name := "a.jpg", suffix := ".JPG", rel := "images/a.jpg", size := 3
    mtime_utc := "2024-05-30T00:00:00+00:00", md5 := "h1", statOk := true }

/-- The record `scan_directory` produces for `rawGood`. -/
def scanOfRawGood : ScanRecord :=
  { rel_path := "images/a.jpg", size := 3, mtime_utc := "2024-05-30T00:00:00+00:00"
    md5 := "h1", qetag := "h1", ext := ".jpg" }

/-- A remote manifest generated earlier than the cached one. -/
def rmW : Manifest :=
  { version := 1, manifest_seq := 1, generated_at_utc := some "2024-06-01T00:00:00+00:00"
    generator_device_id := "dev-b", files := [] }

/-- A cached manifest generated later than the remote one. -/
def cmW : Manifest :=
  { version := 1, manifest_seq := 2, generated_at_utc := some "2024-06-02T00:00:00+00:00"
    generator_device_id := "dev-a", files := [] }

/-! ## Helper lemmas -/

/-- The embedding's code-point order on paths is the standard string
order. -/
theorem pathLe_iff_le (a b : String) : pathLe a b ↔ a ≤ b :=
  String.le_iff_toList_le.symm

/-- `sortKeys` sorts ascending in the standard string order. -/
theorem sorted_sortKeys (l : List String) : List.Sorted (· ≤ ·) (sortKeys l) :=
  (List.sorted_insertionSort pathLe l).imp (fun h => (pathLe_iff_le _ _).mp h)

/-- Membership in `to_upload`: a key is scheduled for upload exactly when
it is local-only or common with a differing checksum. -/
theorem mem_to_upload (localIdx serverIdx : Index) (k : String) :
    k ∈ (compute_diff localIdx serverIdx).to_upload ↔
      (k ∈ keys localIdx ∧ k ∉ keys serverIdx) ∨
      (k ∈ keys localIdx ∧ k ∈ keys serverIdx ∧ md5At localIdx k ≠ md5At serverIdx k) := by
  simp [compute_diff, sortKeys, List.mem_insertionSort, List.mem_filter,
    List.mem_append, List.elem_iff]
  tauto

/-- Membership in `to_delete_remote`: a key is scheduled for remote
deletion exactly when it is server-only and not flagged deleted. -/
theorem mem_to_delete (localIdx serverIdx : Index) (k : String) :
    k ∈ (compute_diff localIdx serverIdx).to_delete_remote ↔
      k ∈ keys serverIdx ∧ deletedAt serverIdx k = false ∧ k ∉ keys localIdx := by
  simp [compute_diff, sortKeys, List.mem_insertionSort, List.mem_filter, List.elem_iff]
  tauto

/-- When the two indices agree on keys and checksums, every diff set is
empty.  The agreement hypothesis is quantified over the keys actually
present, which is all the diff ever inspects. -/
theorem compute_diff_empty_parts (localIdx serverIdx : Index)
    (h : ∀ k ∈ keys localIdx ++ keys serverIdx,
        (k ∈ keys localIdx ↔ k ∈ keys serverIdx) ∧ md5At localIdx k = md5At serverIdx k) :
    (compute_diff localIdx serverIdx).to_upload = [] ∧
    (compute_diff localIdx serverIdx).to_delete_remote = [] ∧
    (compute_diff localIdx serverIdx).to_download = [] := by
  refine ⟨?_, ?_, rfl⟩
  · rw [List.eq_nil_iff_forall_not_mem]
    intro k hk
    rw [mem_to_upload] at hk
    rcases hk with ⟨hl, hs⟩ | ⟨hl, _, hmd⟩
    · exact hs ((h k (List.mem_append_left _ hl)).1.mp hl)
    · exact hmd (h k (List.mem_append_left _ hl)).2
  · rw [List.eq_nil_iff_forall_not_mem]
    intro k hk
    rw [mem_to_delete] at hk
    exact hk.2.2 ((h k (List.mem_append_right _ hk.1)).1.mpr hk.1)

/-- A `ManifestEntry` survives the dict round trip. -/
theorem entry_round_trip (e : ManifestEntry) : ManifestEntry.from_dict e.to_dict = some e := rfl

/-- A files map survives the dict round trip entry by entry. -/
theorem entriesFromDict_round_trip (fs : List (String × ManifestEntry)) :
    entriesFromDict (fs.map (fun p => (p.1, p.2.to_dict))) = some fs := by
  induction fs with
  | nil => rfl
  | cons p rest ih =>
    simp only [List.map_cons, entriesFromDict, entry_round_trip, ih]

/-- A file the scanner keeps passed the reserved-namespace guard on its
relative path. -/
theorem keepFile_rel_guard (f : RawFile) (h : keepFile f = true) :
    strStartsWith f.rel "__sync/" = false ∧ containsSubstr "/__sync/" f.rel = false := by
  by_cases hc : (strStartsWith f.rel "__sync/" || containsSubstr "/__sync/" f.rel
      || containsSubstr "/.stfolder/" f.rel) = true
  · have hfalse : keepFile f = false := by simp [keepFile, hc]
    rw [hfalse] at h
    exact absurd h (by simp)
  · simp only [Bool.or_eq_true, not_or, Bool.not_eq_true] at hc
    exact ⟨hc.1.1, hc.1.2⟩

/-! ## The claims -/

/-- C1: for every pair of index maps, `to_upload` holds exactly the keys
present locally but absent from the server plus the common keys whose
`md5` checksums differ, `to_delete_remote` holds exactly the server keys
with the deleted flag unset that are absent locally, and `to_download` is
empty. -/
theorem compute_diff_sets (localIdx serverIdx : Index) (k : String) :
    (k ∈ (compute_diff localIdx serverIdx).to_upload ↔
      (k ∈ keys localIdx ∧ k ∉ keys serverIdx) ∨
      (k ∈ keys localIdx ∧ k ∈ keys serverIdx ∧ md5At localIdx k ≠ md5At serverIdx k)) ∧
    (k ∈ (compute_diff localIdx serverIdx).to_delete_remote ↔
      k ∈ keys serverIdx ∧ deletedAt serverIdx k = false ∧ k ∉ keys localIdx) ∧
    (compute_diff localIdx serverIdx).to_download = [] :=
  ⟨mem_to_upload localIdx serverIdx k, mem_to_delete localIdx serverIdx k, rfl⟩

/-- C2 (counterexample): with a fresh local key `"b"` and a modified
common key `"a"`, `to_upload` comes out as `["b", "a"]`, which is not
sorted ascending — the claim that every output list is path-sorted fails
on `to_upload`. -/
theorem compute_diff_upload_unsorted :
    (compute_diff c2CexLocal c2CexServer).to_upload = ["b", "a"] ∧
    ¬ List.Sorted (· ≤ ·) (compute_diff c2CexLocal c2CexServer).to_upload := by
  have h : (compute_diff c2CexLocal c2CexServer).to_upload = ["b", "a"] := by decide
  refine ⟨h, ?_⟩
  rw [h]
  simp [List.sorted_cons, String.le_iff_toList_le]
  decide

/-- C2 (amended): the three lists are pairwise disjoint,
`to_delete_remote` and `to_download` are sorted ascending, and
`to_upload` is the concatenation of two sorted segments — the fresh keys
followed by the modified keys — but is not in general globally sorted. -/
theorem compute_diff_disjoint_and_segments (localIdx serverIdx : Index) :
    List.Disjoint (compute_diff localIdx serverIdx).to_upload
      (compute_diff localIdx serverIdx).to_delete_remote ∧
    List.Disjoint (compute_diff localIdx serverIdx).to_upload
      (compute_diff localIdx serverIdx).to_download ∧
    List.Disjoint (compute_diff localIdx serverIdx).to_delete_remote
      (compute_diff localIdx serverIdx).to_download ∧
    List.Sorted (· ≤ ·) (compute_diff localIdx serverIdx).to_delete_remote ∧
    List.Sorted (· ≤ ·) (compute_diff localIdx serverIdx).to_download ∧
    (∃ fresh modified,
      (compute_diff localIdx serverIdx).to_upload = fresh ++ modified ∧
      List.Sorted (· ≤ ·) fresh ∧ List.Sorted (· ≤ ·) modified) := by
  refine ⟨?_, ?_, ?_, ?_, ?_, ?_⟩
  · intro k hk hk'
    rw [mem_to_upload] at hk
    rw [mem_to_delete] at hk'
    tauto
  · intro k hk hk'
    simp [compute_diff] at hk'
  · intro k hk hk'
    simp [compute_diff] at hk'
  · exact (sorted_sortKeys _).filter _
  · simp [compute_diff]
  · exact ⟨_, _, rfl, sorted_sortKeys _, (sorted_sortKeys _).filter _⟩

/-- C3: when remote and cached manifests both exist (and the cache
decodes), the resolver picks the cache with its freshness token exactly
when the cached generation timestamp is `≥` the remote one as an
ISO-8601 string; with exactly one present it picks that one; with
neither it synthesizes an empty sequence-0 manifest generated by this
device. -/
theorem resolveManifest_freshness
    (retag cetag : Option String) (dev nowIso : String)
    (rm cm : Manifest) (cd : ManifestDict) (tr tc : String)
    (hcd : Manifest.from_dict cd = some cm)
    (htr : rm.generated_at_utc = some tr) (htc : cm.generated_at_utc = some tc) :
    (resolveManifest (some rm) retag (some cd) cetag dev nowIso =
      if tr ≤ tc then some (cm, cetag) else some (rm, retag)) ∧
    resolveManifest (some rm) retag none cetag dev nowIso = some (rm, retag) ∧
    resolveManifest none retag (some cd) cetag dev nowIso = some (cm, cetag) ∧
    resolveManifest none retag none cetag dev nowIso =
      some (Manifest.empty dev nowIso, none) ∧
    (Manifest.empty dev nowIso).manifest_seq = 0 ∧
    (Manifest.empty dev nowIso).generator_device_id = dev := by
  refine ⟨?_, rfl, ?_, rfl, rfl, rfl⟩
  · simp [resolveManifest, hcd, htr, htc]
  · simp [resolveManifest, hcd]

/-- C3 (witness): a remote manifest of 2024-06-01 against a cached one of
2024-06-02 — the cache wins the tie-or-newer comparison and its token is
kept. -/
theorem resolveManifest_freshness_witness :
    resolveManifest (some rmW) (some "etag-r") (some cmW.to_dict) (some "etag-c")
        "dev-a" "2024-06-03T00:00:00+00:00" =
      if ("2024-06-01T00:00:00+00:00" : String) ≤ "2024-06-02T00:00:00+00:00"
      then some (cmW, some "etag-c") else some (rmW, some "etag-r") :=
  (resolveManifest_freshness (some "etag-r") (some "etag-c") "dev-a"
    "2024-06-03T00:00:00+00:00" rmW cmW cmW.to_dict
    "2024-06-01T00:00:00+00:00" "2024-06-02T00:00:00+00:00"
    (by decide) rfl rfl).1

/-- C9: a manifest whose files map holds well-formed entries survives the
dict round trip field for field. -/
theorem manifest_dict_round_trip (m : Manifest) :
    Manifest.from_dict m.to_dict = some m := by
  simp only [Manifest.to_dict, Manifest.from_dict, Option.getD_some,
    entriesFromDict_round_trip]

/-- C4 (counterexample): with the skip-deletes guard raised, a first
cycle that ends in a lock skip (live foreign lock) leaves the guard set,
so the following cycle still attempts no remote deletes even though the
server index holds `old/b.jpg`, a path absent locally, which the
unguarded diff would delete — the guard is not single-shot across a
lock-skip outcome. -/
theorem skip_delete_guard_persists :
    (runCycle envC4a).status = .lockHeldByOther ∧
    (runCycle envC4a).skipDeleteOnceAfter = true ∧
    (runCycle envC4b).status = .completed ∧
    (runCycle envC4b).deletesAttempted = [] ∧
    (compute_diff (localIndexFR envC4b.scan) (serverIndexFR serverManifest)).to_delete_remote
      = ["old/b.jpg"] := by
  refine ⟨by decide, by decide, by decide, by decide, by decide⟩

/-- C4 (amended): while the guard is raised the cycle attempts no remote
deletes; the guard is cleared exactly by a cycle that ends in
no-difference or runs to completion, and it persists unchanged through a
cycle that ends in a lock skip, a lock-acquisition failure, or a
resolution error. -/
theorem skip_delete_guard_scope (env : CycleEnv) :
    (env.skipDeleteOnce = true →
      (runCycle env).deletesAttempted = [] ∧ (runCycle env).deletesSucceeded = []) ∧
    ((runCycle env).status = .noDiff ∨ (runCycle env).status = .completed →
      (runCycle env).skipDeleteOnceAfter = false) ∧
    ((runCycle env).status = .lockHeldByOther ∨ (runCycle env).status = .lockAcquireFailed ∨
        (runCycle env).status = .cycleError →
      (runCycle env).skipDeleteOnceAfter = env.skipDeleteOnce) := by
  simp only [runCycle]
  repeat' split
  all_goals refine ⟨fun h => ?_, fun h => ?_, fun h => ?_⟩ <;>
    simp_all [finishCycle, CycleResult.quiet, envDiff]

/-- C4 (witness): in the guarded lock-skip cycle `envC4a`, no deletes are
attempted and the guard carries over. -/
theorem skip_delete_guard_scope_witness :
    envC4a.skipDeleteOnce = true ∧
    (runCycle envC4a).deletesAttempted = [] ∧ (runCycle envC4a).deletesSucceeded = [] ∧
    (runCycle envC4a).skipDeleteOnceAfter = envC4a.skipDeleteOnce :=
  ⟨rfl, ((skip_delete_guard_scope envC4a).1 rfl).1, ((skip_delete_guard_scope envC4a).1 rfl).2,
   (skip_delete_guard_scope envC4a).2.2 (Or.inl (by decide))⟩

/-- C5: with a non-empty diff and no force-override, a foreign lock past
its expiry plus the 5-minute grace is deleted and a fresh lease is
acquired in the same cycle, which then runs the transfers and the
manifest rewrite; a foreign lock still inside its grace window ends the
cycle with zero uploads, zero remote deletes and no manifest write. -/
theorem foreign_lock_lease_handling (env : CycleEnv) (m : Manifest) (etag : Option String)
    (lk : LeaseLock)
    (hres : resolveManifest env.remoteManifest env.remoteEtag env.cachedDict env.cachedEtag
        env.deviceId env.nowIso = some (m, etag))
    (hlk : env.remoteLock = some lk)
    (hforce : env.forceUpload = false)
    (hown : lk.owner_device_id ≠ env.deviceId)
    (hdiff : ¬((envDiff env m).to_upload = [] ∧ (envDiff env m).to_delete_remote = [] ∧
        (envDiff env m).to_download = [])) :
    (lk.is_expired_with_grace env.parse env.now LOCK_GRACE_MINUTES = true →
        env.lockUploadOk = true →
      (runCycle env).status = .completed ∧ (runCycle env).lockReclaimed = true ∧
      (runCycle env).lockWritten = true ∧
      (runCycle env).manifestWritten = some (newManifestOf env m) ∧
      (runCycle env).uploadsAttempted = (envDiff env m).to_upload ∧
      (runCycle env).deletesAttempted = (envDiff env m).to_delete_remote) ∧
    (lk.is_expired_with_grace env.parse env.now LOCK_GRACE_MINUTES = false →
      (runCycle env).status = .lockHeldByOther ∧ (runCycle env).uploadsAttempted = [] ∧
      (runCycle env).deletesAttempted = [] ∧ (runCycle env).lockWritten = false ∧
      (runCycle env).manifestWritten = none ∧
      (runCycle env).skipDeleteOnceAfter = env.skipDeleteOnce) := by
  constructor
  · intro hexp hup
    simp [runCycle, hres, hlk, hforce, hown, hexp, hup, hdiff, finishCycle]
  · intro hexp
    simp [runCycle, hres, hlk, hforce, hown, hexp, hdiff, CycleResult.quiet]

/-- C5 (witness): against the four-hours-stale `staleLock` the cycle
reclaims and completes; against the live `liveLock` it backs off without
writing anything. -/
theorem foreign_lock_lease_handling_witness :
    ((runCycle envC5stale).status = .completed ∧ (runCycle envC5stale).lockReclaimed = true ∧
     (runCycle envC5stale).lockWritten = true ∧
     (runCycle envC5stale).manifestWritten =
       some (newManifestOf envC5stale (Manifest.empty envC5stale.deviceId envC5stale.nowIso)) ∧
     (runCycle envC5stale).uploadsAttempted =
       (envDiff envC5stale (Manifest.empty envC5stale.deviceId envC5stale.nowIso)).to_upload ∧
     (runCycle envC5stale).deletesAttempted =
       (envDiff envC5stale (Manifest.empty envC5stale.deviceId envC5stale.nowIso)).to_delete_remote) ∧
    ((runCycle envC5live).status = .lockHeldByOther ∧
     (runCycle envC5live).uploadsAttempted = [] ∧
     (runCycle envC5live).deletesAttempted = [] ∧ (runCycle envC5live).lockWritten = false ∧
     (runCycle envC5live).manifestWritten = none ∧
     (runCycle envC5live).skipDeleteOnceAfter = envC5live.skipDeleteOnce) :=
  ⟨(foreign_lock_lease_handling envC5stale
      (Manifest.empty envC5stale.deviceId envC5stale.nowIso) none staleLock
      rfl rfl rfl (by decide) (by decide)).1 (by decide) rfl,
   (foreign_lock_lease_handling envC5live
      (Manifest.empty envC5live.deviceId envC5live.nowIso) none liveLock
      rfl rfl rfl (by decide) (by decide)).2 (by decide)⟩

/-- C6: when the local scan and the resolved server index agree on paths
and checksums, all three diff sets are empty and the cycle ends with the
distinct no-difference status having fetched no lock, written no lock,
attempted no upload or delete, and written no manifest. -/
theorem no_diff_short_circuit (env : CycleEnv) (m : Manifest) (etag : Option String)
    (hres : resolveManifest env.remoteManifest env.remoteEtag env.cachedDict env.cachedEtag
        env.deviceId env.nowIso = some (m, etag))
    (h : ∀ k ∈ keys (localIndexFR env.scan) ++ keys (serverIndexFR m),
        (k ∈ keys (localIndexFR env.scan) ↔ k ∈ keys (serverIndexFR m)) ∧
        md5At (localIndexFR env.scan) k = md5At (serverIndexFR m) k) :
    (envDiff env m).to_upload = [] ∧ (envDiff env m).to_delete_remote = [] ∧
    (envDiff env m).to_download = [] ∧
    (runCycle env).status = .noDiff ∧
    (runCycle env).lockFetched = false ∧ (runCycle env).lockWritten = false ∧
    (runCycle env).lockReclaimed = false ∧ (runCycle env).lockReleased = false ∧
    (runCycle env).uploadsAttempted = [] ∧ (runCycle env).deletesAttempted = [] ∧
    (runCycle env).manifestWritten = none := by
  have hd := compute_diff_empty_parts _ _ h
  have hu : (envDiff env m).to_upload = [] := by
    cases hsk : env.skipDeleteOnce <;> simp [envDiff, hsk, hd.1]
  have hdel : (envDiff env m).to_delete_remote = [] := by
    cases hsk : env.skipDeleteOnce <;> simp [envDiff, hsk, hd.2.1]
  have hdl : (envDiff env m).to_download = [] := by
    cases hsk : env.skipDeleteOnce <;> simp [envDiff, hsk, hd.2.2]
  refine ⟨hu, hdel, hdl, ?_⟩
  simp [runCycle, hres, hu, hdel, hdl, CycleResult.quiet]

/-- C6 (witness): a scan of `images/a.jpg` against a server manifest
holding the same path and checksum short-circuits to no-difference. -/
theorem no_diff_short_circuit_witness :
    (envDiff envC6 manifestA).to_upload = [] ∧
    (envDiff envC6 manifestA).to_delete_remote = [] ∧
    (envDiff envC6 manifestA).to_download = [] ∧
    (runCycle envC6).status = .noDiff ∧
    (runCycle envC6).lockFetched = false ∧ (runCycle envC6).lockWritten = false ∧
    (runCycle envC6).lockReclaimed = false ∧ (runCycle envC6).lockReleased = false ∧
    (runCycle envC6).uploadsAttempted = [] ∧ (runCycle envC6).deletesAttempted = [] ∧
    (runCycle envC6).manifestWritten = none :=
  no_diff_short_circuit envC6 manifestA none rfl (by decide)

/-- C7: every cycle that reaches the rewrite step writes a manifest whose
sequence is the resolved sequence plus one, whose timestamp is now, whose
generator is this device, and whose file map is exactly the full local
scan keyed by relative path — with no hypothesis on whether any
individual upload or delete succeeded (`uploadOk`, `deleteOk`,
`fileExists` and `manifestUploadOk` are unconstrained). -/
theorem manifest_rewrite_full_snapshot (env : CycleEnv) (m : Manifest) (etag : Option String)
    (hres : resolveManifest env.remoteManifest env.remoteEtag env.cachedDict env.cachedEtag
        env.deviceId env.nowIso = some (m, etag))
    (hdone : (runCycle env).status = .completed) :
    (runCycle env).manifestWritten = some (newManifestOf env m) ∧
    (newManifestOf env m).manifest_seq = m.manifest_seq + 1 ∧
    (newManifestOf env m).generated_at_utc = some env.nowIso ∧
    (newManifestOf env m).generator_device_id = env.deviceId ∧
    (newManifestOf env m).files = env.scan.map (fun r => (r.rel_path, r.toEntry env.deviceId)) := by
  refine ⟨?_, rfl, rfl, rfl, rfl⟩
  revert hdone
  simp only [runCycle, hres]
  repeat' split
  all_goals intro hdone
  all_goals simp_all [finishCycle, CycleResult.quiet]

/-- C7 (witness): uploading `new/c.jpg` over `manifestA` (sequence 7)
completes and writes the full-snapshot manifest with sequence 8. -/
theorem manifest_rewrite_full_snapshot_witness :
    (runCycle envC7).manifestWritten = some (newManifestOf envC7 manifestA) ∧
    (newManifestOf envC7 manifestA).manifest_seq = manifestA.manifest_seq + 1 ∧
    (newManifestOf envC7 manifestA).generated_at_utc = some envC7.nowIso ∧
    (newManifestOf envC7 manifestA).generator_device_id = envC7.deviceId ∧
    (newManifestOf envC7 manifestA).files =
      envC7.scan.map (fun r => (r.rel_path, r.toEntry envC7.deviceId)) :=
  manifest_rewrite_full_snapshot envC7 manifestA none rfl (by decide)

/-- C8: every record the scanner yields has a relative path outside the
reserved `__sync` namespace, so it can never collide with the manifest
key or the lock key. -/
theorem scanner_reserved_namespace (walk : List RawFile) (r : ScanRecord)
    (hr : r ∈ scan_directory walk) :
    strStartsWith r.rel_path "__sync/" = false ∧
    containsSubstr "/__sync/" r.rel_path = false ∧
    r.rel_path ≠ MANIFEST_KEY ∧ r.rel_path ≠ LOCK_KEY := by
  obtain ⟨f, hf, rfl⟩ := List.mem_map.mp hr
  have hk := (List.mem_filter.mp hf).2
  have hguard := keepFile_rel_guard f hk
  refine ⟨hguard.1, hguard.2, ?_, ?_⟩
  · intro he
    have he' : f.rel = MANIFEST_KEY := he
    exact absurd (he' ▸ hguard.1) (by decide)
  · intro he
    have he' : f.rel = LOCK_KEY := he
    exact absurd (he' ▸ hguard.1) (by decide)

/-- C8 (witness): the surviving file `images/a.jpg` is outside the
reserved namespace. -/
theorem scanner_reserved_namespace_witness :
    strStartsWith scanOfRawGood.rel_path "__sync/" = false ∧
    containsSubstr "/__sync/" scanOfRawGood.rel_path = false ∧
    scanOfRawGood.rel_path ≠ MANIFEST_KEY ∧ scanOfRawGood.rel_path ≠ LOCK_KEY :=
  scanner_reserved_namespace [rawGood] scanOfRawGood (by decide)

/-- C10: a lock whose stored expiry does not parse gets an effective
expiry one day in the past, so it is expired outright and expired under
any grace period of at most one day; in particular a foreign lock with an
unparseable expiry is reclaimed by the cycle (whether or not the
follow-up lease write succeeds) rather than blocking it. -/
theorem corrupt_lock_expiry_reclaim (env : CycleEnv) (m : Manifest) (etag : Option String)
    (lk : LeaseLock) (g : Int)
    (hparse : env.parse lk.expires_at_utc = none)
    (hg : g ≤ ONE_DAY_MINUTES)
    (hres : resolveManifest env.remoteManifest env.remoteEtag env.cachedDict env.cachedEtag
        env.deviceId env.nowIso = some (m, etag))
    (hlk : env.remoteLock = some lk)
    (hforce : env.forceUpload = false)
    (hown : lk.owner_device_id ≠ env.deviceId)
    (hdiff : ¬((envDiff env m).to_upload = [] ∧ (envDiff env m).to_delete_remote = [] ∧
        (envDiff env m).to_download = [])) :
    lk.expires_dt env.parse env.now = env.now - ONE_DAY_MINUTES ∧
    lk.is_expired env.parse env.now = true ∧
    lk.is_expired_with_grace env.parse env.now g = true ∧
    (runCycle env).lockReclaimed = true := by
  have hdt : lk.expires_dt env.parse env.now = env.now - ONE_DAY_MINUTES := by
    simp [LeaseLock.expires_dt, hparse]
  rw [ONE_DAY_MINUTES] at hg
  have hdt' : lk.expires_dt env.parse env.now = env.now - 1440 := by
    rw [hdt, ONE_DAY_MINUTES]
  have hgr : lk.is_expired_with_grace env.parse env.now g = true := by
    simp only [LeaseLock.is_expired_with_grace, hdt', decide_eq_true_eq]
    omega
  have hgr5 : lk.is_expired_with_grace env.parse env.now LOCK_GRACE_MINUTES = true := by
    simp only [LeaseLock.is_expired_with_grace, hdt', decide_eq_true_eq, LOCK_GRACE_MINUTES]
    omega
  refine ⟨hdt, ?_, hgr, ?_⟩
  · simp only [LeaseLock.is_expired, hdt', decide_eq_true_eq]
    omega
  · cases hup : env.lockUploadOk <;>
      simp [runCycle, hres, hlk, hforce, hown, hgr5, hup, hdiff, finishCycle, CycleResult.quiet]

/-- C10 (witness): the cycle facing `corruptLock` (expiry
`"not-a-timestamp"`) treats it as one day expired and reclaims it, at the
engine's 5-minute grace. -/
theorem corrupt_lock_expiry_reclaim_witness :
    corruptLock.expires_dt envC10.parse envC10.now = envC10.now - ONE_DAY_MINUTES ∧
    corruptLock.is_expired envC10.parse envC10.now = true ∧
    corruptLock.is_expired_with_grace envC10.parse envC10.now LOCK_GRACE_MINUTES = true ∧
    (runCycle envC10).lockReclaimed = true :=
  corrupt_lock_expiry_reclaim envC10 (Manifest.empty envC10.deviceId envC10.nowIso) none
    corruptLock LOCK_GRACE_MINUTES rfl (by decide) rfl rfl rfl (by decide) (by decide)

end PicSync
